import Mathlib

/-
Verification of the GDEM raster library (C++ over GDAL) against its
natural-language specification.

Shallow embedding conventions:
* C++ `double` / `float` values are modelled by exact rationals (ℚ); the
  library's geometry is exact on the inputs considered here.
* `static_cast<int>` / `static_cast<size_t>` of a floating value truncates
  toward zero; this is `truncQ`.  `std::round` rounds half away from zero;
  this is `roundQ`.
* `std::sort` (ascending) is modelled by `sortInt` (insertion sort).
* A raster band's single-pixel `RasterIO` read in the DEM accessor is
  `Dem.read : ℕ → ℕ → Option ℤ` — `none` models a failed read (including a
  read outside the raster window, which GDAL rejects).  In the bulk
  operations (Merge, Clip) a failed read aborts the whole operation; the
  claims below concern completed invocations, so there the band is the
  total function `Dataset.data` and only in-window pixels are ever read.
* `GDALDataset` is modelled by `Dataset`: raster sizes, the 6-coefficient
  geotransform, the declared nodata value of band 1, and band-1 pixel data.
-/

/-- Truncation toward zero of a rational, as in a C++ `static_cast<int>`
(or `static_cast<size_t>` on a non-negative value). -/
def truncQ (q : ℚ) : ℤ := if q < 0 then ⌈q⌉ else ⌊q⌋

/-- Rounding half away from zero, as in C++ `std::round`. -/
def roundQ (q : ℚ) : ℤ := if q < 0 then - truncQ (-q + 1/2) else truncQ (q + 1/2)

/-- The exact value of `std::numeric_limits<double>::max()` (DBL_MAX);
`lowest()` is its negation.  These seed the bounding-box folds in Merge. -/
def dblMax : ℚ := 2 ^ 1024 - 2 ^ 971

/-- Ascending sort of a list of integers, modelling `std::sort` on the
collected `std::vector<int16_t>`. -/
def sortInt (l : List ℤ) : List ℤ := l.insertionSort (· ≤ ·)

/-- Exact square root of a rational: returns the non-negative rational root
when the argument is a perfect rational square, and 0 otherwise.  The C++
code takes `std::sqrt` of a planar squared distance; on the inputs settled
here that distance is a perfect rational square, where `ratSqrt` agrees
with the real square root. -/
def ratSqrt (q : ℚ) : ℚ :=
  if 0 ≤ q.num ∧ (Nat.sqrt q.num.toNat) ^ 2 = q.num.toNat ∧ (Nat.sqrt q.den) ^ 2 = q.den
  then (Nat.sqrt q.num.toNat : ℚ) / (Nat.sqrt q.den : ℚ)
  else 0

/-- Geographic coordinate (GDEM/DEM.hpp `Coordinate`), latitude/longitude. -/
structure Coordinate where
  latitude : ℚ
  longitude : ℚ

/-- Corner bounds of a raster (GDEM/DEM.hpp `Bounds`). -/
structure Bounds where
  NW : Coordinate
  NE : Coordinate
  SW : Coordinate
  SE : Coordinate

/-- Containment test of GDEM/DEM.hpp `Bounds::within`: the point is inside
iff `latitude >= SW.latitude && latitude < NE.latitude && longitude >=
SW.longitude && longitude < NE.longitude`. -/
def Bounds.within (b : Bounds) (latitude longitude : ℚ) : Bool :=
  latitude ≥ b.SW.latitude && latitude < b.NE.latitude &&
  longitude ≥ b.SW.longitude && longitude < b.NE.longitude

/-- A 6-coefficient affine geotransform, indexed as in GDAL:
g0 = origin x, g1 = pixel width, g2 = row rotation, g3 = origin y,
g4 = column rotation, g5 = pixel height. -/
structure Geo where
  g0 : ℚ
  g1 : ℚ
  g2 : ℚ
  g3 : ℚ
  g4 : ℚ
  g5 : ℚ

/-- A raster dataset as consumed by the Utility operations (Merge, Clip):
`GetRasterXSize`, `GetRasterYSize`, `GetGeoTransform`, band 1's declared
nodata value, and band 1's pixel data (x offset, then y offset). -/
structure Dataset where
  xsize : ℕ
  ysize : ℕ
  gt : Geo
  nodata : ℤ
  data : ℕ → ℕ → ℤ

namespace Utility

/-- Merge bounding-box scan: `min_x`, seeded with DBL_MAX as in the C++
single-pass loop over `source_datasets`. -/
def mergeMinX (ds : List Dataset) : ℚ :=
  ds.foldl (fun a d => min a d.gt.g0) dblMax

/-- Merge bounding-box scan: `min_y = min over inputs of (g3 + ysize*g5)`. -/
def mergeMinY (ds : List Dataset) : ℚ :=
  ds.foldl (fun a d => min a (d.gt.g3 + (d.ysize : ℚ) * d.gt.g5)) dblMax

/-- Merge bounding-box scan: `max_x = max over inputs of (g0 + xsize*g1)`. -/
def mergeMaxX (ds : List Dataset) : ℚ :=
  ds.foldl (fun a d => max a (d.gt.g0 + (d.xsize : ℚ) * d.gt.g1)) (-dblMax)

/-- Merge bounding-box scan: `max_y = max over inputs of g3`. -/
def mergeMaxY (ds : List Dataset) : ℚ :=
  ds.foldl (fun a d => max a d.gt.g3) (-dblMax)

/-- Merge cell-size scan: `cellsize_x = max over inputs of |g1|`, seeded 0. -/
def mergeCellX (ds : List Dataset) : ℚ :=
  ds.foldl (fun a d => max a |d.gt.g1|) 0

/-- Merge cell-size scan: `cellsize_y = max over inputs of |g5|`, seeded 0. -/
def mergeCellY (ds : List Dataset) : ℚ :=
  ds.foldl (fun a d => max a |d.gt.g5|) 0

/-- Output geotransform of Merge:
`{min_x, cellsize_x, 0, max_y, 0, -cellsize_y}`. -/
def mergeGT (ds : List Dataset) : Geo :=
  ⟨mergeMinX ds, mergeCellX ds, 0, mergeMaxY ds, 0, - mergeCellY ds⟩

/-- Output column count of Merge: `static_cast<int>((max_x - min_x) / cellsize_x)`. -/
def mergeCols (ds : List Dataset) : ℤ :=
  truncQ ((mergeMaxX ds - mergeMinX ds) / mergeCellX ds)

/-- Output row count of Merge: `static_cast<int>((max_y - min_y) / cellsize_y)`. -/
def mergeRows (ds : List Dataset) : ℤ :=
  truncQ ((mergeMaxY ds - mergeMinY ds) / mergeCellY ds)

/-- Geographic x of output cell (i, j):
`x = g0 + j*g1 + i*g2` over the output geotransform. -/
def mergePosX (ds : List Dataset) (i j : ℤ) : ℚ :=
  (mergeGT ds).g0 + (j : ℚ) * (mergeGT ds).g1 + (i : ℚ) * (mergeGT ds).g2

/-- Geographic y of output cell (i, j):
`y = g3 + j*g4 + i*g5` over the output geotransform. -/
def mergePosY (ds : List Dataset) (i j : ℤ) : ℚ :=
  (mergeGT ds).g3 + (j : ℚ) * (mergeGT ds).g4 + (i : ℚ) * (mergeGT ds).g5

/-- Per-cell collection loop of Merge: for each input dataset compute
`x_index = static_cast<int>((x - g0)/g1)` and
`y_index = static_cast<int>((y - g3)/g5)`; when both lie inside the input,
sample the value and collect it. -/
def mergeCollect (ds : List Dataset) (x y : ℚ) : List ℤ :=
  ds.filterMap fun d =>
    let xi := truncQ ((x - d.gt.g0) / d.gt.g1)
    let yi := truncQ ((y - d.gt.g3) / d.gt.g5)
    if 0 ≤ xi ∧ xi < (d.xsize : ℤ) ∧ 0 ≤ yi ∧ yi < (d.ysize : ℤ)
    then some (d.data xi.toNat yi.toNat)
    else none

/-- Median step of the `Merge(vector<GDALDataset*>, ...)` overload: sort
ascending and take `values[values.size() / 2]`; when no value was
collected, fall back to the supplied value (the first input's declared
nodata in that overload). -/
def medianFloor (values : List ℤ) (fallback : ℤ) : ℤ :=
  if values = [] then fallback
  else (sortInt values).getD (values.length / 2) 0

/-- Median step of the legacy `Utility::Merge(vector<string>, ...)`
overload: for an even count average the two middle elements with integer
division, for an odd count take the middle element; an empty collection
yields the constant 0. -/
def medianAvg (values : List ℤ) : ℤ :=
  if values = [] then 0
  else
    let s := sortInt values
    if values.length % 2 = 0
    then Int.tdiv (s.getD (values.length / 2 - 1) 0 + s.getD (values.length / 2) 0) 2
    else s.getD (values.length / 2) 0

/-- The output raster written by Merge: dimensions, geotransform, the
declared nodata value set on band 1 (`SetNoDataValue(nodata_value)`), and
the per-cell values written by the merge loop. -/
structure MergeOut where
  xsize : ℤ
  ysize : ℤ
  gt : Geo
  bandNodata : ℤ
  cell : ℤ → ℤ → ℤ

/-- Output of the `Merge(vector<GDALDataset*>, ...)` overload
(GDEM/Utility.hpp l.229 and the identical Utility.cpp l.333 version) on the
non-empty input list `d0 :: rest`: uncovered cells fall back to
`source_datasets[0]`'s declared nodata, covered cells take
`values[values.size()/2]` of the ascending sort. -/
def mergeDatasetsOut (d0 : Dataset) (rest : List Dataset) (nodata_value : ℤ) : MergeOut :=
  let ds := d0 :: rest
  { xsize := mergeCols ds
    ysize := mergeRows ds
    gt := mergeGT ds
    bandNodata := nodata_value
    cell := fun i j =>
      medianFloor (mergeCollect ds (mergePosX ds i j) (mergePosY ds i j)) d0.nodata }

/-- The `Merge(vector<GDALDataset*>, ...)` overload: an empty input list is
rejected, otherwise the merged raster is produced. -/
def Merge (source_datasets : List Dataset) (nodata_value : ℤ) : Except String MergeOut :=
  match source_datasets with
  | [] => .error "no input datasets provided"
  | d0 :: rest => .ok (mergeDatasetsOut d0 rest nodata_value)

/-- Output of the legacy `Utility::Merge(vector<string>, ...)` overload
(Utility.cpp l.215) on the non-empty list of opened datasets `d0 :: rest`:
identical grid computation, but uncovered cells are written as the constant
0 and even-count medians average the two middle elements. -/
def mergePathsOut (d0 : Dataset) (rest : List Dataset) (nodata_value : ℤ) : MergeOut :=
  let ds := d0 :: rest
  { xsize := mergeCols ds
    ysize := mergeRows ds
    gt := mergeGT ds
    bandNodata := nodata_value
    cell := fun i j =>
      medianAvg (mergeCollect ds (mergePosX ds i j) (mergePosY ds i j)) }

/-- The legacy `Utility::Merge(vector<string>, ...)` overload, after the
source files have been opened into datasets: an empty input list is
rejected, otherwise the merged raster is produced. -/
def MergeOnPaths (source_datasets : List Dataset) (nodata_value : ℤ) : Except String MergeOut :=
  match source_datasets with
  | [] => .error "no input file paths provided"
  | d0 :: rest => .ok (mergePathsOut d0 rest nodata_value)

/-- Clip pixel window: `start_x = static_cast<int>((top_left_x - g0)/g1)`,
then clamped by `std::max(0, std::min(start_x, source_x_size))`. -/
def clipStartX (src : Dataset) (top_left_x : ℚ) : ℤ :=
  max 0 (min (truncQ ((top_left_x - src.gt.g0) / src.gt.g1)) (src.xsize : ℤ))

/-- Clip pixel window: `start_y`, computed and clamped like `clipStartX`. -/
def clipStartY (src : Dataset) (top_left_y : ℚ) : ℤ :=
  max 0 (min (truncQ ((top_left_y - src.gt.g3) / src.gt.g5)) (src.ysize : ℤ))

/-- Clip pixel window: `end_x`, computed from the bottom-right x and
clamped like `clipStartX`. -/
def clipEndX (src : Dataset) (bottom_right_x : ℚ) : ℤ :=
  max 0 (min (truncQ ((bottom_right_x - src.gt.g0) / src.gt.g1)) (src.xsize : ℤ))

/-- Clip pixel window: `end_y`, computed from the bottom-right y and
clamped like `clipStartY`. -/
def clipEndY (src : Dataset) (bottom_right_y : ℚ) : ℤ :=
  max 0 (min (truncQ ((bottom_right_y - src.gt.g3) / src.gt.g5)) (src.ysize : ℤ))

/-- The output raster written by Clip: window dimensions, shifted
geotransform, and the copied window of band-1 pixels. -/
structure ClipOut where
  xsize : ℤ
  ysize : ℤ
  gt : Geo
  cell : ℤ → ℤ → ℤ

/-- Output raster of a successful Clip: size `end - start` per axis,
geotransform with origin shifted to the window's top-left corner and the
rotation coefficients written as 0, window pixels copied from the source. -/
def clipOut (src : Dataset) (top_left_x top_left_y bottom_right_x bottom_right_y : ℚ) : ClipOut :=
  let sx := clipStartX src top_left_x
  let sy := clipStartY src top_left_y
  { xsize := clipEndX src bottom_right_x - sx
    ysize := clipEndY src bottom_right_y - sy
    gt := ⟨src.gt.g0 + (sx : ℚ) * src.gt.g1, src.gt.g1, 0,
           src.gt.g3 + (sy : ℚ) * src.gt.g5, 0, src.gt.g5⟩
    cell := fun i j => src.data (sx + j).toNat (sy + i).toNat }

/-- The Clip operation (GDEM/Utility.hpp l.386, Utility.cpp l.434/l.528):
fails with "invalid clipping coordinates" exactly when the clamped window
is degenerate on either axis, otherwise produces the clipped raster. -/
def Clip (src : Dataset) (top_left_x top_left_y bottom_right_x bottom_right_y : ℚ) :
    Except String ClipOut :=
  if clipEndX src bottom_right_x - clipStartX src top_left_x ≤ 0 ∨
     clipEndY src bottom_right_y - clipStartY src top_left_y ≤ 0
  then .error "invalid clipping coordinates"
  else .ok (clipOut src top_left_x top_left_y bottom_right_x bottom_right_y)

/-- The lambda `coordinates_along_line` inside CoordinatesAlongPolygon:
planar distance, `steps = static_cast<int>(distance / (interval/3600))`,
then for i in [0, steps] emit the linear interpolation between the two
endpoints (no iteration when steps is negative). -/
def coordinates_along_line (interval_arcseconds : ℚ)
    (latitude_a longitude_a latitude_b longitude_b : ℚ) : List (ℚ × ℚ) :=
  let distance := ratSqrt ((latitude_b - latitude_a) ^ 2 + (longitude_b - longitude_a) ^ 2)
  let steps := truncQ (distance / (interval_arcseconds / 3600))
  let count := if steps < 0 then 0 else steps.toNat + 1
  (List.range count).map fun (i : ℕ) =>
    (latitude_a + ((i : ℚ) / (steps : ℚ)) * (latitude_b - latitude_a),
     longitude_a + ((i : ℚ) / (steps : ℚ)) * (longitude_b - longitude_a))

/-- CoordinatesAlongPolygon (GDEM/Utility.hpp l.632): fewer than 2 points
is rejected; otherwise emit the densified points of every consecutive
segment, in order. -/
def CoordinatesAlongPolygon (polygon_points : List (ℚ × ℚ)) (interval_arcseconds : ℚ) :
    Except String (List (ℚ × ℚ)) :=
  if polygon_points.length < 2 then .error "at least 2 points are required"
  else .ok ((polygon_points.zip polygon_points.tail).foldl
    (fun acc ab =>
      acc ++ coordinates_along_line interval_arcseconds ab.1.1 ab.1.2 ab.2.1 ab.2.2) [])

end Utility

/-- A DEM handle: the `Type` metadata (rows, columns, extents, resolutions,
nodata) of one raster band plus the band's single-pixel read, which can
fail (`none`).  `read x y` reads at column offset x, row offset y, and
fails outside the raster window.  Both DEM generations in the repository
carry the same fields (the GDEM header's `nrows`/`ncols` coincide with
`rows`/`columns`). -/
structure Dem where
  rows : ℕ
  columns : ℕ
  y_min : ℚ
  x_min : ℚ
  y_max : ℚ
  x_max : ℚ
  y_resolution : ℚ
  x_resolution : ℚ
  nodata : ℤ
  read : ℕ → ℕ → Option ℤ

/-- Bounds of a DEM as initialised by the GDEM header:
NW = (y_max, x_min), NE = (y_max, x_max), SW = (y_min, x_min),
SE = (y_min, x_max). -/
def Dem.bounds (d : Dem) : Bounds :=
  ⟨⟨d.y_max, d.x_min⟩, ⟨d.y_max, d.x_max⟩, ⟨d.y_min, d.x_min⟩, ⟨d.y_min, d.x_max⟩⟩

namespace GDEM

/-- Fractional pixel index of the GDEM header `DEM::index`: inside the
bounds it is `((lat - y_max)/y_resolution, (lon - x_min)/x_resolution)`,
outside it is the nodata sentinel pair. -/
def index (d : Dem) (latitude longitude : ℚ) : ℚ × ℚ :=
  if d.bounds.within latitude longitude
  then ((latitude - d.y_max) / d.y_resolution, (longitude - d.x_min) / d.x_resolution)
  else ((d.nodata : ℚ), (d.nodata : ℚ))

/-- GDEM header `DEM::altitude`: sentinel check, round both fractional
indices, clamp an index equal to the row/column count down by one, read
the single sample, and absorb a read failure into nodata. -/
def altitude (d : Dem) (latitude longitude : ℚ) : ℤ :=
  let rc := index d latitude longitude
  if rc.1 = (d.nodata : ℚ) ∨ rc.2 = (d.nodata : ℚ) then d.nodata
  else
    let r := roundQ rc.1
    let c := roundQ rc.2
    let r := if r = (d.rows : ℤ) then r - 1 else r
    let c := if c = (d.columns : ℤ) then c - 1 else c
    match d.read c.toNat r.toNat with
    | some v => v
    | none => d.nodata

/-- GDEM header `DEM::interpolated_altitude`, modelled exactly as written:
`next_r`/`next_c` are computed as the clamped absolute neighbour indices
(`r` at the last row, else `r + 1`), but the four corner reads are then
issued at offsets `c`/`c + next_c` and `r`/`r + next_r`. -/
def interpolated_altitude (d : Dem) (latitude longitude : ℚ) : ℚ :=
  let rc := index d latitude longitude
  if rc.1 = (d.nodata : ℚ) ∨ rc.2 = (d.nodata : ℚ) then (d.nodata : ℚ)
  else
    let r := truncQ rc.1
    let c := truncQ rc.2
    let del_latitude := min rc.1 ((d.rows : ℚ) - 1) - (r : ℚ)
    let del_longitude := min rc.2 ((d.columns : ℚ) - 1) - (c : ℚ)
    let next_r := if r = (d.rows : ℤ) - 1 then r else r + 1
    let next_c := if c = (d.columns : ℤ) - 1 then c else c + 1
    match d.read c.toNat r.toNat, d.read (c + next_c).toNat r.toNat,
          d.read c.toNat (r + next_r).toNat, d.read (c + next_c).toNat (r + next_r).toNat with
    | some m, some n, some o, some p =>
        (1 - del_latitude) * (1 - del_longitude) * (m : ℚ) +
        del_longitude * (1 - del_latitude) * (n : ℚ) +
        (1 - del_longitude) * del_latitude * (o : ℚ) +
        del_latitude * del_longitude * (p : ℚ)
    | _, _, _, _ => (d.nodata : ℚ)

end GDEM

namespace Old

/-- Legacy `DEM::check_coordinates_bounds` (src/DEM.cpp): same half-open
containment test as the GDEM bounds. -/
def check_coordinates_bounds (d : Dem) (latitude longitude : ℚ) : Bool :=
  latitude ≥ d.y_min && latitude < d.y_max &&
  longitude ≥ d.x_min && longitude < d.x_max

/-- Legacy `DEM::index`: fractional pixel index or the nodata sentinel. -/
def index (d : Dem) (latitude longitude : ℚ) : ℚ × ℚ :=
  if check_coordinates_bounds d latitude longitude
  then ((latitude - d.y_max) / d.y_resolution, (longitude - d.x_min) / d.x_resolution)
  else ((d.nodata : ℚ), (d.nodata : ℚ))

/-- Legacy `DEM::altitude`: sentinel check, round both fractional indices
and read directly at the rounded pixel — no boundary clamp — absorbing a
read failure into nodata. -/
def altitude (d : Dem) (latitude longitude : ℚ) : ℤ :=
  let rc := index d latitude longitude
  if rc.1 = (d.nodata : ℚ) ∨ rc.2 = (d.nodata : ℚ) then d.nodata
  else
    let r := roundQ rc.1
    let c := roundQ rc.2
    match d.read c.toNat r.toNat with
    | some v => v
    | none => d.nodata

/-- Legacy `DEM::interpolated_altitude`: corner reads at `(c, r)`,
`(c+1, r)`, `(c, r+1)`, `(c+1, r+1)` with no boundary clamp. -/
def interpolated_altitude (d : Dem) (latitude longitude : ℚ) : ℚ :=
  let rc := index d latitude longitude
  if rc.1 = (d.nodata : ℚ) ∨ rc.2 = (d.nodata : ℚ) then (d.nodata : ℚ)
  else
    let r := truncQ rc.1
    let c := truncQ rc.2
    let del_latitude := min rc.1 ((d.rows : ℚ) - 1) - (r : ℚ)
    let del_longitude := min rc.2 ((d.columns : ℚ) - 1) - (c : ℚ)
    match d.read c.toNat r.toNat, d.read (c + 1).toNat r.toNat,
          d.read c.toNat (r + 1).toNat, d.read (c + 1).toNat (r + 1).toNat with
    | some m, some n, some o, some p =>
        (1 - del_latitude) * (1 - del_longitude) * (m : ℚ) +
        del_longitude * (1 - del_latitude) * (n : ℚ) +
        (1 - del_longitude) * del_latitude * (o : ℚ) +
        del_latitude * del_longitude * (p : ℚ)
    | _, _, _, _ => (d.nodata : ℚ)

end Old

/-- Reference behaviour stated by the specification for `altitude`
(claim side, for comparison with the code): round half away from zero,
clamp an index equal to the row/column count down by one, read exactly one
sample there, and return nodata for an out-of-bounds query or failed read. -/
def altitude_per_claim (d : Dem) (latitude longitude : ℚ) : ℤ :=
  if d.bounds.within latitude longitude then
    let r := roundQ ((latitude - d.y_max) / d.y_resolution)
    let c := roundQ ((longitude - d.x_min) / d.x_resolution)
    let r := if r = (d.rows : ℤ) then r - 1 else r
    let c := if c = (d.columns : ℤ) then c - 1 else c
    match d.read c.toNat r.toNat with
    | some v => v
    | none => d.nodata
  else d.nodata

/-- Reference behaviour stated by the specification for
`interpolated_altitude` (claim side): the four corner samples are read at
`(r, c)`, `(r, c+1)`, `(r+1, c)`, `(r+1, c+1)`, with the neighbour index
clamped to `r` (respectively `c`) at the last row/column, so every corner
read stays inside the raster. -/
def interpolated_altitude_per_claim (d : Dem) (latitude longitude : ℚ) : ℚ :=
  if d.bounds.within latitude longitude then
    let rc := ((latitude - d.y_max) / d.y_resolution, (longitude - d.x_min) / d.x_resolution)
    let r := truncQ rc.1
    let c := truncQ rc.2
    let del_latitude := min rc.1 ((d.rows : ℚ) - 1) - (r : ℚ)
    let del_longitude := min rc.2 ((d.columns : ℚ) - 1) - (c : ℚ)
    let next_r := if r = (d.rows : ℤ) - 1 then r else r + 1
    let next_c := if c = (d.columns : ℤ) - 1 then c else c + 1
    match d.read c.toNat r.toNat, d.read next_c.toNat r.toNat,
          d.read c.toNat next_r.toNat, d.read next_c.toNat next_r.toNat with
    | some m, some n, some o, some p =>
        (1 - del_latitude) * (1 - del_longitude) * (m : ℚ) +
        del_longitude * (1 - del_latitude) * (n : ℚ) +
        (1 - del_longitude) * del_latitude * (o : ℚ) +
        del_latitude * del_longitude * (p : ℚ)
    | _, _, _, _ => (d.nodata : ℚ)
  else (d.nodata : ℚ)

/-! Concrete instances used to settle the claims. -/

/-- A 1x1 raster at x span [0,1], y span [0,1], holding the value 10. -/
def dOverlapA : Dataset :=
  { xsize := 1, ysize := 1, gt := ⟨0, 1, 0, 1, 0, -1⟩, nodata := -32768, data := fun _ _ => 10 }

/-- A 1x1 raster with the same footprint as dOverlapA, holding 20. -/
def dOverlapB : Dataset :=
  { xsize := 1, ysize := 1, gt := ⟨0, 1, 0, 1, 0, -1⟩, nodata := -32768, data := fun _ _ => 20 }

/-- A 1x1 raster at x span [0,1], value 11, declared nodata -32768. -/
def dGapL : Dataset :=
  { xsize := 1, ysize := 1, gt := ⟨0, 1, 0, 1, 0, -1⟩, nodata := -32768, data := fun _ _ => 11 }

/-- A 1x1 raster at x span [2,3] leaving a one-cell gap after dGapL. -/
def dGapR : Dataset :=
  { xsize := 1, ysize := 1, gt := ⟨2, 1, 0, 1, 0, -1⟩, nodata := -32768, data := fun _ _ => 22 }

/-- A 2x2 raster at x span [0,2], y span [0,2]. -/
def dTrA : Dataset :=
  { xsize := 2, ysize := 2, gt := ⟨0, 1, 0, 2, 0, -1⟩, nodata := -32768, data := fun _ _ => 5 }

/-- A 2x2 raster at x span [3/5, 13/5]: the union with dTrA is 13/5 wide,
a non-integer multiple of the (common) cell size 1. -/
def dTrB : Dataset :=
  { xsize := 2, ysize := 2, gt := ⟨3/5, 1, 0, 2, 0, -1⟩, nodata := -32768, data := fun _ _ => 6 }

/-- A 3x3 DEM (latitudes [0,3], longitudes [0,3], resolutions (-1, 1)),
every sample 7, nodata -32768; reads outside the window fail. -/
def demC2 : Dem :=
  { rows := 3, columns := 3, y_min := 0, x_min := 0, y_max := 3, x_max := 3,
    y_resolution := -1, x_resolution := 1, nodata := -32768,
    read := fun x y => if x < 3 ∧ y < 3 then some 7 else none }

/-- A 2x2 DEM (latitudes [0,2], longitudes [0,2], resolutions (-1, 1)),
every sample 7, nodata -32768; reads outside the window fail. -/
def demC5 : Dem :=
  { rows := 2, columns := 2, y_min := 0, x_min := 0, y_max := 2, x_max := 2,
    y_resolution := -1, x_resolution := 1, nodata := -32768,
    read := fun x y => if x < 2 ∧ y < 2 then some 7 else none }

/-- A 1x1 DEM (latitudes [0,1], longitudes [0,1]), sample 9. -/
def demW : Dem :=
  { rows := 1, columns := 1, y_min := 0, x_min := 0, y_max := 1, x_max := 1,
    y_resolution := -1, x_resolution := 1, nodata := -32768,
    read := fun x y => if x < 1 ∧ y < 1 then some 9 else none }

/-! Helper lemmas: evaluating the numeric primitives. -/

/-- Truncation of a non-negative rational agrees with the floor on the
enclosing integer interval. -/
theorem truncQ_eq_of_nonneg {q : ℚ} {z : ℤ} (h0 : 0 ≤ q) (h1 : (z : ℚ) ≤ q)
    (h2 : q < (z : ℚ) + 1) : truncQ q = z := by
  unfold truncQ
  rw [if_neg (not_lt.mpr h0), Int.floor_eq_iff]
  exact ⟨h1, h2⟩

/-- Truncation of a negative rational agrees with the ceiling on the
enclosing integer interval. -/
theorem truncQ_eq_of_neg {q : ℚ} {z : ℤ} (h0 : q < 0) (h1 : (z : ℚ) - 1 < q)
    (h2 : q ≤ (z : ℚ)) : truncQ q = z := by
  unfold truncQ
  rw [if_pos h0, Int.ceil_eq_iff]
  exact ⟨h1, h2⟩

/-- Rounding a non-negative rational: characterised via the half-shifted
integer interval. -/
theorem roundQ_eq_of_nonneg {q : ℚ} {z : ℤ} (h0 : 0 ≤ q) (h1 : (z : ℚ) ≤ q + 1/2)
    (h2 : q + 1/2 < (z : ℚ) + 1) : roundQ q = z := by
  unfold roundQ
  rw [if_neg (not_lt.mpr h0)]
  exact truncQ_eq_of_nonneg (by linarith) h1 h2

/-- Exact square root of a squared non-negative rational. -/
theorem ratSqrt_sq {r : ℚ} (h0 : 0 ≤ r) : ratSqrt (r ^ 2) = r := by
  have hn0 : 0 ≤ r.num := Rat.num_nonneg.mpr h0
  have hnum : (r ^ 2).num = r.num ^ 2 := Rat.num_pow r 2
  have hden : (r ^ 2).den = r.den ^ 2 := Rat.den_pow r 2
  have h1 : (r.num ^ 2).toNat = r.num.toNat ^ 2 := by
    have : r.num ^ 2 = ((r.num.toNat ^ 2 : ℕ) : ℤ) := by
      push_cast
      rw [Int.toNat_of_nonneg hn0]
    rw [this, Int.toNat_natCast]
  unfold ratSqrt
  rw [hnum, hden, h1]
  rw [if_pos ⟨by positivity, by rw [Nat.sqrt_eq'], by rw [Nat.sqrt_eq']⟩]
  rw [Nat.sqrt_eq', Nat.sqrt_eq']
  have h2 : ((r.num.toNat : ℤ) : ℚ) = (r.num : ℚ) := by rw [Int.toNat_of_nonneg hn0]
  push_cast at h2 ⊢
  rw [h2, Rat.num_div_den]

/-- Both clamped window coordinates of Clip stay inside [0, size]. -/
theorem clamp_mem (v n : ℤ) (hn : 0 ≤ n) : 0 ≤ max 0 (min v n) ∧ max 0 (min v n) ≤ n :=
  ⟨le_max_left _ _, max_le hn (min_le_right _ _)⟩

/-- C6: for every bounds rectangle, within(lat, lon) is true iff lat lies
in [SW.lat, NE.lat) and lon lies in [SW.lon, NE.lon); a point on the south
or west edge is included, a point on the north or east edge is excluded. -/
theorem C6_within_iff (b : Bounds) (latitude longitude : ℚ) :
    b.within latitude longitude = true ↔
      (b.SW.latitude ≤ latitude ∧ latitude < b.NE.latitude ∧
       b.SW.longitude ≤ longitude ∧ longitude < b.NE.longitude) := by
  simp [Bounds.within, ge_iff_le, and_assoc]

/-- C7: Clip clamps each of the four pixel coordinates independently into
[0, sourceSize], fails exactly when the clamped window is degenerate
(end - start nonpositive) on either axis, and on success the output window
is end - start per axis — so a box with a non-degenerate clamped overlap
is clipped to that overlap rather than rejected. -/
theorem C7_clip_clamp_window (src : Dataset) (tlx tly brx bry : ℚ) :
    (0 ≤ Utility.clipStartX src tlx ∧ Utility.clipStartX src tlx ≤ (src.xsize : ℤ)) ∧
    (0 ≤ Utility.clipStartY src tly ∧ Utility.clipStartY src tly ≤ (src.ysize : ℤ)) ∧
    (0 ≤ Utility.clipEndX src brx ∧ Utility.clipEndX src brx ≤ (src.xsize : ℤ)) ∧
    (0 ≤ Utility.clipEndY src bry ∧ Utility.clipEndY src bry ≤ (src.ysize : ℤ)) ∧
    ((Utility.Clip src tlx tly brx bry).isOk = true ↔
      (0 < Utility.clipEndX src brx - Utility.clipStartX src tlx ∧
       0 < Utility.clipEndY src bry - Utility.clipStartY src tly)) ∧
    (Utility.clipOut src tlx tly brx bry).xsize =
      Utility.clipEndX src brx - Utility.clipStartX src tlx ∧
    (Utility.clipOut src tlx tly brx bry).ysize =
      Utility.clipEndY src bry - Utility.clipStartY src tly := by
  refine ⟨clamp_mem _ _ (Int.natCast_nonneg _), clamp_mem _ _ (Int.natCast_nonneg _),
    clamp_mem _ _ (Int.natCast_nonneg _), clamp_mem _ _ (Int.natCast_nonneg _), ?_, rfl, rfl⟩
  by_cases h : Utility.clipEndX src brx - Utility.clipStartX src tlx ≤ 0 ∨
      Utility.clipEndY src bry - Utility.clipStartY src tly ≤ 0
  · simp only [Utility.Clip, if_pos h, Except.isOk, Except.toBool, Bool.false_eq_true, false_iff]
    rcases h with h | h <;> omega
  · simp only [Utility.Clip, if_neg h, Except.isOk, Except.toBool, true_iff]
    push_neg at h
    omega

/-- C9: every raster produced by a completed Merge (either overload) or a
successful Clip carries a geotransform whose two rotation coefficients are
exactly zero, whatever rotation terms the inputs carried. -/
theorem C9_axis_aligned_outputs (d0 : Dataset) (rest : List Dataset) (nodata_value : ℤ)
    (src : Dataset) (tlx tly brx bry : ℚ) :
    (Utility.mergeDatasetsOut d0 rest nodata_value).gt.g2 = 0 ∧
    (Utility.mergeDatasetsOut d0 rest nodata_value).gt.g4 = 0 ∧
    (Utility.mergePathsOut d0 rest nodata_value).gt.g2 = 0 ∧
    (Utility.mergePathsOut d0 rest nodata_value).gt.g4 = 0 ∧
    (Utility.clipOut src tlx tly brx bry).gt.g2 = 0 ∧
    (Utility.clipOut src tlx tly brx bry).gt.g4 = 0 := by
  refine ⟨rfl, rfl, rfl, rfl, rfl, rfl⟩

/-- C4 (amended): for every Merge invocation with at least one input, the
output has trunc((max_x - min_x)/cellsize_x) columns and
trunc((max_y - min_y)/cellsize_y) rows — truncation toward zero (the C++
int cast), not rounding to nearest — over the union bounding box and the
maximum absolute cell sizes of the inputs, in both Merge overloads. -/
theorem C4_amended_output_dimensions (d0 : Dataset) (rest : List Dataset) (nodata_value : ℤ) :
    (Utility.mergeDatasetsOut d0 rest nodata_value).xsize =
      truncQ ((Utility.mergeMaxX (d0 :: rest) - Utility.mergeMinX (d0 :: rest)) /
        Utility.mergeCellX (d0 :: rest)) ∧
    (Utility.mergeDatasetsOut d0 rest nodata_value).ysize =
      truncQ ((Utility.mergeMaxY (d0 :: rest) - Utility.mergeMinY (d0 :: rest)) /
        Utility.mergeCellY (d0 :: rest)) ∧
    (Utility.mergePathsOut d0 rest nodata_value).xsize =
      truncQ ((Utility.mergeMaxX (d0 :: rest) - Utility.mergeMinX (d0 :: rest)) /
        Utility.mergeCellX (d0 :: rest)) ∧
    (Utility.mergePathsOut d0 rest nodata_value).ysize =
      truncQ ((Utility.mergeMaxY (d0 :: rest) - Utility.mergeMinY (d0 :: rest)) /
        Utility.mergeCellY (d0 :: rest)) := by
  refine ⟨rfl, rfl, rfl, rfl⟩

/-- C10: both Merge overloads declare the caller-supplied nodata parameter
as the output band's nodata metadata, even though a cell covered by no
input is filled with the first input's declared nodata in the
dataset-based overload and with the constant 0 in the path-based one. -/
theorem C10_band_nodata_metadata (d0 : Dataset) (rest : List Dataset) (nodata_value : ℤ)
    (i j : ℤ)
    (h : Utility.mergeCollect (d0 :: rest) (Utility.mergePosX (d0 :: rest) i j)
        (Utility.mergePosY (d0 :: rest) i j) = []) :
    (Utility.mergeDatasetsOut d0 rest nodata_value).bandNodata = nodata_value ∧
    (Utility.mergePathsOut d0 rest nodata_value).bandNodata = nodata_value ∧
    (Utility.mergeDatasetsOut d0 rest nodata_value).cell i j = d0.nodata ∧
    (Utility.mergePathsOut d0 rest nodata_value).cell i j = 0 := by
  refine ⟨rfl, rfl, ?_, ?_⟩
  · simp [Utility.mergeDatasetsOut, Utility.medianFloor, h]
  · simp [Utility.mergePathsOut, Utility.medianAvg, h]

/-! Literal evaluations of the numeric primitives. -/

/-- truncQ at 0. -/
theorem truncQ_zero : truncQ 0 = 0 :=
  truncQ_eq_of_nonneg (by norm_num) (by norm_num) (by norm_num)

/-- truncQ at 1. -/
theorem truncQ_one : truncQ 1 = 1 :=
  truncQ_eq_of_nonneg (by norm_num) (by norm_num) (by norm_num)

/-- truncQ at -1. -/
theorem truncQ_neg_one : truncQ (-1) = -1 :=
  truncQ_eq_of_neg (by norm_num) (by norm_num) (by norm_num)

/-- roundQ at 1/2 rounds up (half away from zero). -/
theorem roundQ_half : roundQ (1/2) = 1 :=
  roundQ_eq_of_nonneg (by norm_num) (by norm_num) (by norm_num)

/-- roundQ at 2. -/
theorem roundQ_two : roundQ 2 = 2 :=
  roundQ_eq_of_nonneg (by norm_num) (by norm_num) (by norm_num)

/-! Evaluation of the concrete Merge instances. -/

/-- The overlapping pair collects exactly the values 10 and 20 at output
cell (0, 0). -/
theorem overlap_collect_raw :
    Utility.mergeCollect [dOverlapA, dOverlapB]
      (Utility.mergePosX [dOverlapA, dOverlapB] 0 0)
      (Utility.mergePosY [dOverlapA, dOverlapB] 0 0) = [10, 20] := by
  have hx : Utility.mergePosX [dOverlapA, dOverlapB] 0 0 = 0 := by
    norm_num [Utility.mergePosX, Utility.mergeGT, Utility.mergeMinX, Utility.mergeCellX,
      Utility.mergeMaxY, Utility.mergeCellY, dOverlapA, dOverlapB, List.foldl,
      min_def, max_def, dblMax]
  have hy : Utility.mergePosY [dOverlapA, dOverlapB] 0 0 = 1 := by
    norm_num [Utility.mergePosY, Utility.mergeGT, Utility.mergeMinX, Utility.mergeCellX,
      Utility.mergeMaxY, Utility.mergeCellY, dOverlapA, dOverlapB, List.foldl,
      min_def, max_def, dblMax]
  rw [hx, hy]
  norm_num [Utility.mergeCollect, List.filterMap_cons, dOverlapA, dOverlapB, truncQ_zero]

/-- The gapped pair collects no value at output cell (0, 1). -/
theorem mergeGap_uncovered :
    Utility.mergeCollect [dGapL, dGapR]
      (Utility.mergePosX [dGapL, dGapR] 0 1)
      (Utility.mergePosY [dGapL, dGapR] 0 1) = [] := by
  have hx : Utility.mergePosX [dGapL, dGapR] 0 1 = 1 := by
    norm_num [Utility.mergePosX, Utility.mergeGT, Utility.mergeMinX, Utility.mergeCellX,
      Utility.mergeMaxY, Utility.mergeCellY, dGapL, dGapR, List.foldl,
      min_def, max_def, dblMax]
  have hy : Utility.mergePosY [dGapL, dGapR] 0 1 = 1 := by
    norm_num [Utility.mergePosY, Utility.mergeGT, Utility.mergeMinX, Utility.mergeCellX,
      Utility.mergeMaxY, Utility.mergeCellY, dGapL, dGapR, List.foldl,
      min_def, max_def, dblMax]
  rw [hx, hy]
  norm_num [Utility.mergeCollect, List.filterMap_cons, dGapL, dGapR, truncQ_zero, truncQ_one,
    truncQ_neg_one]

/-- C1 (counterexample): with the overlapping pair holding 10 and 20 at a
shared cell, the no-averaging Merge overload writes 20 — the upper-middle
element of the ascending sort — not the lower-middle element 10 the claim
names. -/
theorem C1_counterexample :
    sortInt (Utility.mergeCollect [dOverlapA, dOverlapB]
      (Utility.mergePosX [dOverlapA, dOverlapB] 0 0)
      (Utility.mergePosY [dOverlapA, dOverlapB] 0 0)) = [10, 20] ∧
    (Utility.mergeDatasetsOut dOverlapA [dOverlapB] (-9999)).cell 0 0 = 20 ∧
    ((20 : ℤ) ≠ 10) := by
  refine ⟨by rw [overlap_collect_raw]; decide, ?_, by decide⟩
  simp only [Utility.mergeDatasetsOut]
  rw [overlap_collect_raw]
  decide

/-- C1 (amended): a cell that collects exactly the values 10 and 20 is
written as 15 by the median-average (path-based) Merge overload and as 20
— the element at index count/2 of the ascending sort, the upper-middle
element for an even count — by the no-averaging (dataset-based) overload. -/
theorem C1_amended_median_policies (d0 : Dataset) (rest : List Dataset) (nodata_value : ℤ)
    (i j : ℤ)
    (h : sortInt (Utility.mergeCollect (d0 :: rest) (Utility.mergePosX (d0 :: rest) i j)
        (Utility.mergePosY (d0 :: rest) i j)) = [10, 20]) :
    (Utility.mergePathsOut d0 rest nodata_value).cell i j = 15 ∧
    (Utility.mergeDatasetsOut d0 rest nodata_value).cell i j = 20 := by
  have hlen : (Utility.mergeCollect (d0 :: rest) (Utility.mergePosX (d0 :: rest) i j)
      (Utility.mergePosY (d0 :: rest) i j)).length = 2 := by
    have h2 := List.length_insertionSort (fun a b : ℤ => a ≤ b)
      (Utility.mergeCollect (d0 :: rest) (Utility.mergePosX (d0 :: rest) i j)
        (Utility.mergePosY (d0 :: rest) i j))
    unfold sortInt at h
    rw [h] at h2
    exact h2.symm
  have hne : Utility.mergeCollect (d0 :: rest) (Utility.mergePosX (d0 :: rest) i j)
      (Utility.mergePosY (d0 :: rest) i j) ≠ [] := by
    intro h0
    rw [h0] at hlen
    simp at hlen
  constructor
  · simp only [Utility.mergePathsOut, Utility.medianAvg, if_neg hne, hlen, h]
    decide
  · simp only [Utility.mergeDatasetsOut, Utility.medianFloor, if_neg hne, hlen, h]
    decide

/-- C1 (witness): the amended statement at the concrete overlapping pair. -/
theorem C1_amended_median_policies_witness :
    (Utility.mergePathsOut dOverlapA [dOverlapB] (-9999)).cell 0 0 = 15 ∧
    (Utility.mergeDatasetsOut dOverlapA [dOverlapB] (-9999)).cell 0 0 = 20 :=
  C1_amended_median_policies dOverlapA [dOverlapB] (-9999) 0 0
    (by rw [overlap_collect_raw]; decide)

/-- C3 (counterexample): in the path-based Merge overload an output cell
covered by no input is written as 0, not as the first input raster's
declared nodata (-32768 here). -/
theorem C3_counterexample :
    (Utility.mergePathsOut dGapL [dGapR] (-9999)).cell 0 1 = 0 ∧
    dGapL.nodata = -32768 ∧
    ((0 : ℤ) ≠ -32768) := by
  refine ⟨?_, rfl, by decide⟩
  simp only [Utility.mergePathsOut]
  rw [mergeGap_uncovered]
  decide

/-- C3 (amended): an output cell covered by no input raster is filled with
the first input's declared nodata by the dataset-based Merge overload, and
with the constant 0 by the path-based overload; neither uses the
caller-supplied nodata parameter. -/
theorem C3_amended_uncovered_fill (d0 : Dataset) (rest : List Dataset) (nodata_value : ℤ)
    (i j : ℤ)
    (h : Utility.mergeCollect (d0 :: rest) (Utility.mergePosX (d0 :: rest) i j)
        (Utility.mergePosY (d0 :: rest) i j) = []) :
    (Utility.mergeDatasetsOut d0 rest nodata_value).cell i j = d0.nodata ∧
    (Utility.mergePathsOut d0 rest nodata_value).cell i j = 0 := by
  constructor
  · simp [Utility.mergeDatasetsOut, Utility.medianFloor, h]
  · simp [Utility.mergePathsOut, Utility.medianAvg, h]

/-- C3 (witness): the amended statement at the concrete gapped pair. -/
theorem C3_amended_uncovered_fill_witness :
    (Utility.mergeDatasetsOut dGapL [dGapR] (-9999)).cell 0 1 = -32768 ∧
    (Utility.mergePathsOut dGapL [dGapR] (-9999)).cell 0 1 = 0 :=
  C3_amended_uncovered_fill dGapL [dGapR] (-9999) 0 1 mergeGap_uncovered

/-- C10 (witness): the nodata metadata and uncovered-cell fills at the
concrete gapped pair. -/
theorem C10_band_nodata_metadata_witness :
    (Utility.mergeDatasetsOut dGapL [dGapR] (-9999)).bandNodata = -9999 ∧
    (Utility.mergePathsOut dGapL [dGapR] (-9999)).bandNodata = -9999 ∧
    (Utility.mergeDatasetsOut dGapL [dGapR] (-9999)).cell 0 1 = -32768 ∧
    (Utility.mergePathsOut dGapL [dGapR] (-9999)).cell 0 1 = 0 :=
  C10_band_nodata_metadata dGapL [dGapR] (-9999) 0 1 mergeGap_uncovered

/-- C4 (counterexample): merging dTrA and dTrB gives a union bounding box
13/5 wide at cell size 1; the output has trunc(13/5) = 2 columns, while
round(13/5) = 3, so the claimed round-to-nearest formula fails. -/
theorem C4_counterexample :
    (Utility.mergeDatasetsOut dTrA [dTrB] (-9999)).xsize = 2 ∧
    roundQ ((Utility.mergeMaxX [dTrA, dTrB] - Utility.mergeMinX [dTrA, dTrB]) /
      Utility.mergeCellX [dTrA, dTrB]) = 3 ∧
    ((2 : ℤ) ≠ 3) := by
  have hmin : Utility.mergeMinX [dTrA, dTrB] = 0 := by
    norm_num [Utility.mergeMinX, dTrA, dTrB, List.foldl, min_def, dblMax]
  have hmax : Utility.mergeMaxX [dTrA, dTrB] = 13/5 := by
    norm_num [Utility.mergeMaxX, dTrA, dTrB, List.foldl, max_def, dblMax]
  have hcell : Utility.mergeCellX [dTrA, dTrB] = 1 := by
    norm_num [Utility.mergeCellX, dTrA, dTrB, List.foldl, max_def]
  refine ⟨?_, ?_, by decide⟩
  · show Utility.mergeCols [dTrA, dTrB] = 2
    unfold Utility.mergeCols
    rw [hmin, hmax, hcell]
    exact truncQ_eq_of_nonneg (by norm_num) (by norm_num) (by norm_num)
  · rw [hmin, hmax, hcell]
    exact roundQ_eq_of_nonneg (by norm_num) (by norm_num) (by norm_num)

/-- truncQ at 5/2. -/
theorem truncQ_five_halves : truncQ (5/2) = 2 :=
  truncQ_eq_of_nonneg (by norm_num) (by norm_num) (by norm_num)

/-- C5 (amended): whenever the fractional pixel indices do not collide
with the nodata sentinel, the GDEM altitude query behaves exactly as the
claim states (round half away from zero, clamp an index equal to the
row/column count down by one, read one sample, absorb a failed read into
nodata); an out-of-bounds query returns nodata; the legacy altitude,
however, reads at the unclamped rounded index, so its boundary behaviour
is a failed read rather than a clamped sample. -/
theorem C5_amended_altitude_behaviour :
    (∀ (d : Dem) (latitude longitude : ℚ),
      (latitude - d.y_max) / d.y_resolution ≠ (d.nodata : ℚ) →
      (longitude - d.x_min) / d.x_resolution ≠ (d.nodata : ℚ) →
      GDEM.altitude d latitude longitude = altitude_per_claim d latitude longitude) ∧
    (∀ (d : Dem) (latitude longitude : ℚ),
      d.bounds.within latitude longitude = false →
      GDEM.altitude d latitude longitude = d.nodata ∧
      altitude_per_claim d latitude longitude = d.nodata) ∧
    (∀ (d : Dem) (latitude longitude : ℚ),
      Old.check_coordinates_bounds d latitude longitude = true →
      (latitude - d.y_max) / d.y_resolution ≠ (d.nodata : ℚ) →
      (longitude - d.x_min) / d.x_resolution ≠ (d.nodata : ℚ) →
      Old.altitude d latitude longitude =
        (match d.read (roundQ ((longitude - d.x_min) / d.x_resolution)).toNat
            (roundQ ((latitude - d.y_max) / d.y_resolution)).toNat with
         | some v => v
         | none => d.nodata)) := by
  refine ⟨?_, ?_, ?_⟩
  · intro d latitude longitude h1 h2
    by_cases hw : d.bounds.within latitude longitude = true
    · simp [GDEM.altitude, GDEM.index, altitude_per_claim, hw, h1, h2]
    · rw [Bool.not_eq_true] at hw
      simp [GDEM.altitude, GDEM.index, altitude_per_claim, hw]
  · intro d latitude longitude hw
    constructor
    · simp [GDEM.altitude, GDEM.index, hw]
    · simp [altitude_per_claim, hw]
  · intro d latitude longitude hw h1 h2
    simp [Old.altitude, Old.index, hw, h1, h2]

/-- C5 (witness): the amended statement instantiated — an interior GDEM
query, an out-of-bounds GDEM query, and an interior legacy query. -/
theorem C5_amended_altitude_behaviour_witness :
    (GDEM.altitude demW (1/2) (1/2) = altitude_per_claim demW (1/2) (1/2)) ∧
    (GDEM.altitude demW 5 5 = demW.nodata) ∧
    (Old.altitude demC5 (3/2) (1/2) =
      (match demC5.read (roundQ (((1/2 : ℚ) - demC5.x_min) / demC5.x_resolution)).toNat
          (roundQ (((3/2 : ℚ) - demC5.y_max) / demC5.y_resolution)).toNat with
       | some v => v
       | none => demC5.nodata)) := by
  refine ⟨C5_amended_altitude_behaviour.1 demW (1/2) (1/2) (by norm_num [demW])
      (by norm_num [demW]),
    (C5_amended_altitude_behaviour.2.1 demW 5 5 ?_).1,
    C5_amended_altitude_behaviour.2.2 demC5 (3/2) (1/2) ?_ (by norm_num [demC5])
      (by norm_num [demC5])⟩
  · simp [demW, Dem.bounds, Bounds.within]
  · simp [demC5, Old.check_coordinates_bounds]
    norm_num

/-- C5 (counterexample): at the south edge of demC5 the rounded row index
equals the row count; the claim says the index is clamped and the boundary
sample (7) is read, but the legacy altitude reads the unclamped index, the
read fails, and nodata (-32768) is returned instead. -/
theorem C5_counterexample :
    Old.check_coordinates_bounds demC5 0 (1/2) = true ∧
    Old.altitude demC5 0 (1/2) = -32768 ∧
    altitude_per_claim demC5 0 (1/2) = 7 ∧
    ((-32768 : ℤ) ≠ 7) := by
  have hb : Old.check_coordinates_bounds demC5 0 (1/2) = true := by
    simp [demC5, Old.check_coordinates_bounds]
    norm_num
  have hbw : demC5.bounds.within 0 (1/2) = true := by
    simp [demC5, Dem.bounds, Bounds.within]
    norm_num
  refine ⟨hb, ?_, ?_, by decide⟩
  · simp only [Old.altitude, Old.index, hb, if_true]
    norm_num [demC5, roundQ_two, roundQ_half]
  · simp only [altitude_per_claim, hbw, if_true]
    norm_num [demC5, roundQ_two, roundQ_half]

/-- C2 (code_bug): at interior fractional pixel (1, 1) of the 3x3 demC2,
the GDEM interpolated altitude issues its second corner read at column
c + next_c = 3 (outside the raster), fails, and returns nodata, while the
claimed corner reads (all within bounds) give the bilinear value 7; the
legacy version reads the unclamped r+1 row at the last pixel row and
fails there too. -/
theorem C2_neighbor_reads_out_of_bounds :
    GDEM.interpolated_altitude demC2 2 1 = -32768 ∧
    interpolated_altitude_per_claim demC2 2 1 = 7 ∧
    Old.interpolated_altitude demC2 (1/2) 1 = -32768 ∧
    interpolated_altitude_per_claim demC2 (1/2) 1 = 7 ∧
    ((-32768 : ℚ) ≠ 7) := by
  have hbw1 : demC2.bounds.within 2 1 = true := by
    simp [demC2, Dem.bounds, Bounds.within]
    norm_num
  have hbw2 : demC2.bounds.within (1/2) 1 = true := by
    simp [demC2, Dem.bounds, Bounds.within]
    norm_num
  have hb2 : Old.check_coordinates_bounds demC2 (1/2) 1 = true := by
    simp [demC2, Old.check_coordinates_bounds]
    norm_num
  refine ⟨?_, ?_, ?_, ?_, by norm_num⟩
  · simp only [GDEM.interpolated_altitude, GDEM.index, hbw1, if_true]
    norm_num [demC2, truncQ_one]
  · simp only [interpolated_altitude_per_claim, hbw1, if_true]
    norm_num [demC2, truncQ_one]
  · simp only [Old.interpolated_altitude, Old.index, hb2, if_true]
    norm_num [demC2, truncQ_one, truncQ_five_halves]
  · simp only [interpolated_altitude_per_claim, hbw2, if_true]
    norm_num [demC2, truncQ_one, truncQ_five_halves]

/-- C8: CoordinatesAlongPolygon on exactly 2 points 1 arcsecond apart with
interval 1.0 arcsecond returns exactly the 2 endpoints; and per segment,
for a true planar distance d (0 ≤ d, d² = Δlat² + Δlon²), the code emits
exactly steps + 1 points, steps = trunc(d / (interval/3600)), the i-th
point being the linear interpolation A + (i/steps)·(B - A). -/
theorem C8_polygon_densification :
    (Utility.CoordinatesAlongPolygon [((0 : ℚ), (0 : ℚ)), ((1/3600 : ℚ), (0 : ℚ))] 1 =
      Except.ok [((0 : ℚ), (0 : ℚ)), ((1/3600 : ℚ), (0 : ℚ))]) ∧
    (∀ (interval latitude_a longitude_a latitude_b longitude_b d : ℚ) (steps : ℤ),
      0 ≤ d →
      d ^ 2 = (latitude_b - latitude_a) ^ 2 + (longitude_b - longitude_a) ^ 2 →
      steps = truncQ (d / (interval / 3600)) →
      1 ≤ steps →
      (Utility.coordinates_along_line interval latitude_a longitude_a latitude_b
        longitude_b).length = steps.toNat + 1 ∧
      ∀ i : ℕ, i < steps.toNat + 1 →
        (Utility.coordinates_along_line interval latitude_a longitude_a latitude_b
          longitude_b).getD i (0, 0) =
          (latitude_a + ((i : ℚ) / (steps : ℚ)) * (latitude_b - latitude_a),
           longitude_a + ((i : ℚ) / (steps : ℚ)) * (longitude_b - longitude_a))) := by
  constructor
  · have h1 : ratSqrt (((1/3600 : ℚ) - 0) ^ 2 + ((0 : ℚ) - 0) ^ 2) = 1/3600 := by
      have e : ((1/3600 : ℚ) - 0) ^ 2 + ((0 : ℚ) - 0) ^ 2 = (1/3600 : ℚ) ^ 2 := by ring
      rw [e, ratSqrt_sq (by norm_num)]
    have h2 : truncQ ((1/3600 : ℚ) / (1 / 3600)) = 1 := by
      have e : (1/3600 : ℚ) / (1 / 3600) = 1 := by norm_num
      rw [e, truncQ_one]
    have hcal : Utility.coordinates_along_line 1 0 0 (1/3600) 0 =
        [((0 : ℚ), (0 : ℚ)), ((1/3600 : ℚ), (0 : ℚ))] := by
      rw [Utility.coordinates_along_line]
      simp only [h1, h2]
      norm_num [List.range_succ]
    rw [Utility.CoordinatesAlongPolygon, if_neg (by norm_num)]
    simp only [List.tail_cons, List.zip_cons_cons, List.zip_nil_right, List.foldl_cons]
    rw [hcal]
    simp
  · intro interval latitude_a longitude_a latitude_b longitude_b d steps hd0 hd2 hs hs1
    have hrs : ratSqrt ((latitude_b - latitude_a) ^ 2 + (longitude_b - longitude_a) ^ 2) = d := by
      rw [← hd2, ratSqrt_sq hd0]
    subst hs
    rw [Utility.coordinates_along_line]
    simp only [hrs, if_neg (show ¬ truncQ (d / (interval / 3600)) < 0 by omega)]
    refine ⟨by simp, ?_⟩
    intro i hi
    rw [List.getD_eq_getElem?_getD, List.getElem?_map, List.getElem?_range hi]
    rfl

/-- C8 (witness): the per-segment characterisation instantiated at the two
points (0,0) and (1/3600, 0) with interval 1: distance 1/3600, steps 1,
hence 2 emitted points, the two endpoints. -/
theorem C8_polygon_densification_witness :
    (Utility.coordinates_along_line 1 0 0 (1/3600) 0).length = 2 ∧
    (Utility.coordinates_along_line 1 0 0 (1/3600) 0).getD 0 (0, 0) = ((0 : ℚ), (0 : ℚ)) ∧
    (Utility.coordinates_along_line 1 0 0 (1/3600) 0).getD 1 (0, 0) =
      ((1/3600 : ℚ), (0 : ℚ)) := by
  have hs : (1 : ℤ) = truncQ ((1/3600 : ℚ) / (1 / 3600)) := by
    have e : (1/3600 : ℚ) / (1 / 3600) = 1 := by norm_num
    rw [e, truncQ_one]
  obtain ⟨hlen, hget⟩ := C8_polygon_densification.2 1 0 0 (1/3600) 0 (1/3600) 1
    (by norm_num) (by ring) hs (by norm_num)
  refine ⟨by simpa using hlen, ?_, ?_⟩
  · have := hget 0 (by norm_num)
    simpa using this
  · have := hget 1 (by norm_num)
    simpa using this
